import Mathlib

/-!
Verification of the browser-automation / accessibility-testing repository.

This file shallowly embeds the pure, decidable cores of the repository's
Python (and embedded JavaScript) code in Lean 4 and proves or refutes the
frozen claims about it.  Each definition is translated from a named source
function; page/DOM/LLM interaction is environment input and is modelled as
explicit arguments.  Python exceptions are modelled with `Except`,
Python floats whose values stay exact in the relevant range with `ℚ`/`ℤ`.

String helpers model the Python/JS string primitives used by the code
(`.lower()`, `.strip()`, `in`, `.count`, `.startswith`); they act on ASCII
the way Python does, which covers every string the claims mention.
-/

deriving instance DecidableEq for Except

/-- `needle` occurs as a contiguous sublist of the second argument. -/
def listInfix (needle : List Char) : List Char → Bool
  | [] => needle.isEmpty
  | c :: rest => needle.isPrefixOf (c :: rest) || listInfix needle rest

/-- Python `needle in hay` — substring containment. -/
def strContains (hay needle : String) : Bool :=
  listInfix needle.data hay.data

/-- Python `s.strip()` on a character list (whitespace at both ends removed). -/
def pyStripList (cs : List Char) : List Char :=
  ((cs.dropWhile Char.isWhitespace).reverse.dropWhile Char.isWhitespace).reverse

/-- Python `s.strip()`. -/
def pyStrip (s : String) : String :=
  String.mk (pyStripList s.data)

/-- Python `s.lower()` (ASCII range, matching `str.lower` on the strings used here). -/
def pyLower (s : String) : String :=
  String.mk (s.data.map Char.toLower)

/-- Python `s.upper()` (ASCII range). -/
def pyUpper (s : String) : String :=
  String.mk (s.data.map Char.toUpper)

/-- Python `hay.count(needle)` — non-overlapping occurrences, scanning left to
right (the `needle = ""` convention of Python is included for totality). -/
def pyCount (needle hay : List Char) : Nat :=
  if h : needle = [] then hay.length + 1
  else
    match hay with
    | [] => 0
    | c :: rest =>
      if needle.isPrefixOf (c :: rest) then
        1 + pyCount needle ((c :: rest).drop needle.length)
      else
        pyCount needle rest
termination_by hay.length
decreasing_by
  · simp only [List.length_drop]
    have : 0 < needle.length := List.length_pos.mpr h
    simp only [List.length_cons]
    omega
  · simp only [List.length_cons]
    omega

/-- Decimal value of a digit run (`int` applied to a string of digits). -/
def digitsToNat (ds : List Char) : Nat :=
  ds.foldl (fun acc c => 10 * acc + (c.toNat - '0'.toNat)) 0

/-- Maximal runs of decimal digits, in order: `re.findall(r'\d+', s)`. -/
def digitRunsAux (cur : List Char) : List Char → List (List Char)
  | [] => if cur = [] then [] else [cur.reverse]
  | c :: rest =>
    if c.isDigit then digitRunsAux (c :: cur) rest
    else if cur = [] then digitRunsAux [] rest
    else cur.reverse :: digitRunsAux [] rest

/-- `re.findall(r'\d+', s)`. -/
def digitRuns (cs : List Char) : List (List Char) :=
  digitRunsAux [] cs

namespace AccTools

/-! ## `accessiblity_tools.py` — data model

`IssueType`, `WCAGLevel`, `AccessibilityIssue` and `AccessibilityReport`
mirror the dataclasses/enums of the source file.  `score` is an `ℤ`: the
source computes it from integer penalties and `round(int, 1)` is the
identity, so no float behaviour is lost. -/

inductive IssueType where
  | violation
  | warning
  | manual_check
  | pass
deriving DecidableEq, Repr

inductive WCAGLevel where
  | A
  | AA
  | AAA
deriving DecidableEq, Repr

structure AccessibilityIssue where
  id : String
  type : IssueType
  wcag_criterion : String
  level : WCAGLevel
  title : String
  description : String
  element : String
  selector : String
  impact : String
  help_url : String
  fix_recommendation : String
deriving DecidableEq, Repr

/-- `AccessibilityTester._calculate_accessibility_score`.  The source returns
`100.0` when both `violations` and `warnings` are empty, otherwise
`round(max(0, 100 - 10·|v| - 5·|w| - 2·|m|), 1)`; the argument of `round`
is an `int`, so rounding is the identity. -/
def calculate_accessibility_score (violations warnings manual_checks : List AccessibilityIssue) : ℤ :=
  if violations = [] ∧ warnings = [] then 100
  else
    let violation_penalty : ℤ := violations.length * 10
    let warning_penalty : ℤ := warnings.length * 5
    let manual_check_penalty : ℤ := manual_checks.length * 2
    let total_penalty := violation_penalty + warning_penalty + manual_check_penalty
    max 0 (100 - total_penalty)

/-- The deduplication key of `_deduplicate_issues`:
`f"{issue.wcag_criterion}:{issue.selector}:{issue.title}"`. -/
def issueKey (i : AccessibilityIssue) : String :=
  i.wcag_criterion ++ ":" ++ i.selector ++ ":" ++ i.title

/-- The loop of `_deduplicate_issues`, with the `seen` set made explicit. -/
def deduplicate_issues_aux (seen : List String) : List AccessibilityIssue → List AccessibilityIssue
  | [] => []
  | i :: rest =>
    if issueKey i ∈ seen then deduplicate_issues_aux seen rest
    else i :: deduplicate_issues_aux (issueKey i :: seen) rest

/-- `AccessibilityTester._deduplicate_issues`. -/
def deduplicate_issues (issues : List AccessibilityIssue) : List AccessibilityIssue :=
  deduplicate_issues_aux [] issues

/-- Per-principle counts of `_generate_wcag_summary`. -/
structure WcagSummary where
  perceivable : Nat
  operable : Nat
  understandable : Nat
  robust : Nat
deriving DecidableEq, Repr

/-- `AccessibilityTester._generate_wcag_summary`: counts issues by the leading
component of the criterion id. -/
def generate_wcag_summary (issues : List AccessibilityIssue) : WcagSummary :=
  issues.foldl
    (fun s i =>
      if i.wcag_criterion.startsWith "1." then { s with perceivable := s.perceivable + 1 }
      else if i.wcag_criterion.startsWith "2." then { s with operable := s.operable + 1 }
      else if i.wcag_criterion.startsWith "3." then { s with understandable := s.understandable + 1 }
      else if i.wcag_criterion.startsWith "4." then { s with robust := s.robust + 1 }
      else s)
    { perceivable := 0, operable := 0, understandable := 0, robust := 0 }

/-- `AccessibilityTester._generate_recommendations`. -/
def generate_recommendations (violations warnings : List AccessibilityIssue) : List String :=
  let issue_types := (violations ++ warnings).map (fun i => i.id)
  (if violations ≠ [] then
    ["🚨 Address " ++ toString violations.length ++ " critical accessibility violations immediately"]
   else []) ++
  (if warnings ≠ [] then
    ["⚠️ Review " ++ toString warnings.length ++ " accessibility warnings for potential issues"]
   else []) ++
  (if issue_types.any (fun t => strContains t "color-contrast") then
    ["🎨 Improve color contrast ratios to meet WCAG AA standards (4.5:1)"] else []) ++
  (if issue_types.any (fun t => strContains t "alt") then
    ["🖼️ Add meaningful alternative text to all images"] else []) ++
  (if issue_types.any (fun t => strContains t "heading") then
    ["📝 Fix heading structure and hierarchy"] else []) ++
  (if issue_types.any (fun t => strContains t "keyboard") then
    ["⌨️ Ensure all interactive elements are keyboard accessible"] else []) ++
  ["🔍 Perform manual testing with screen readers and keyboard navigation",
   "📱 Test on mobile devices for touch target sizes and usability"]

/-- The report dataclass `AccessibilityReport`. -/
structure AccessibilityReport where
  url : String
  timestamp : String
  score : ℤ
  total_issues : Nat
  violations : List AccessibilityIssue
  warnings : List AccessibilityIssue
  manual_checks : List AccessibilityIssue
  passed_tests : List AccessibilityIssue
  wcag_summary : WcagSummary
  recommendations : List String
deriving DecidableEq, Repr

/-- The aggregation core of `AccessibilityTester.run_comprehensive_test`:
from the concatenation of the engines' issue lists (`all_issues`, environment
input here) it deduplicates, partitions by issue type, scores, summarizes and
builds the report.  `url` and `timestamp` are passed through. -/
def run_comprehensive_test_report (url timestamp : String)
    (all_issues : List AccessibilityIssue) : AccessibilityReport :=
  let unique_issues := deduplicate_issues all_issues
  let violations := unique_issues.filter (fun i => i.type == IssueType.violation)
  let warnings := unique_issues.filter (fun i => i.type == IssueType.warning)
  let manual_checks := unique_issues.filter (fun i => i.type == IssueType.manual_check)
  let passed_tests := unique_issues.filter (fun i => i.type == IssueType.pass)
  { url := url
    timestamp := timestamp
    score := calculate_accessibility_score violations warnings manual_checks
    total_issues := violations.length + warnings.length
    violations := violations
    warnings := warnings
    manual_checks := manual_checks
    passed_tests := passed_tests
    wcag_summary := generate_wcag_summary (violations ++ warnings)
    recommendations := generate_recommendations violations warnings }

/-- First issue of the C9 counterexample: criterion `1.4.3`, selector
`a:hover`, title `t`. -/
def issueColA : AccessibilityIssue :=
  { id := "a", type := .violation, wcag_criterion := "1.4.3", level := .AA,
    title := "t", description := "first description", element := "<a>",
    selector := "a:hover", impact := "serious", help_url := "",
    fix_recommendation := "" }

/-- Second issue of the C9 counterexample: criterion `1.4.3:a`, selector
`hover`, title `t` — a different triple with the same colon-joined key. -/
def issueColB : AccessibilityIssue :=
  { id := "b", type := .violation, wcag_criterion := "1.4.3:a", level := .AA,
    title := "t", description := "second description", element := "<b>",
    selector := "hover", impact := "serious", help_url := "",
    fix_recommendation := "" }

end AccTools

namespace ColorContrastChecker

/-! ## `ColorContrastChecker.check_wcag_compliance`

Contrast ratios and thresholds are exact decimals, embedded in `ℚ`. -/

structure WcagComplianceResult where
  AA : Bool
  AAA : Bool
  ratio : ℚ
  threshold_AA : ℚ
  threshold_AAA : ℚ
deriving DecidableEq, Repr

/-- `ColorContrastChecker.check_wcag_compliance(ratio, font_size, bold)`. -/
def check_wcag_compliance (ratio : ℚ) (font_size : ℤ) (bold : Bool) : WcagComplianceResult :=
  let is_large_text : Bool := decide (font_size ≥ 18) || (decide (font_size ≥ 14) && bold)
  let aa_threshold : ℚ := if is_large_text then 3.0 else 4.5
  let aaa_threshold : ℚ := if is_large_text then 4.5 else 7.0
  { AA := decide (ratio ≥ aa_threshold)
    AAA := decide (ratio ≥ aaa_threshold)
    ratio := ratio
    threshold_AA := aa_threshold
    threshold_AAA := aaa_threshold }

/-! ## `ColorContrastChecker._parse_color`

`_parse_color` returns a Python tuple of ints; in the `rgb()` branch the
tuple can have fewer than three components, so the embedding returns
`List ℤ`.  `int(s, 16)` raising `ValueError` is modelled with `Except`. -/

/-- Hexadecimal digit test (`0-9a-fA-F`). -/
def isHexDigit (c : Char) : Bool :=
  c.isDigit || ('a' ≤ c && c ≤ 'f') || ('A' ≤ c && c ≤ 'F')

/-- Value of a hexadecimal digit. -/
def hexVal (c : Char) : Nat :=
  if c.isDigit then c.toNat - '0'.toNat
  else if 'a' ≤ c && c ≤ 'f' then c.toNat - 'a'.toNat + 10
  else c.toNat - 'A'.toNat + 10

/-- Digit-group scanner for `int(s, 16)`: accepts hex digits with single
underscores strictly between digits.  `seenDigit`/`lastUnd` track whether a
digit has been read and whether the previous character was an underscore
(initialising `lastUnd := true` forbids a leading underscore). -/
def hexGroups (acc : Nat) (seenDigit lastUnd : Bool) : List Char → Option Nat
  | [] => if seenDigit && !lastUnd then some acc else none
  | c :: rest =>
    if c = '_' then
      if lastUnd then none else hexGroups acc seenDigit true rest
    else if isHexDigit c then
      hexGroups (16 * acc + hexVal c) true false rest
    else none

/-- Python `int(s, 16)`: surrounding whitespace, an optional sign, an optional
`0x`/`0X` prefix (after which one leading underscore is allowed), then hex
digits with single underscores between them; anything else raises. -/
def pyIntHex (s : String) : Except Unit ℤ :=
  let cs := pyStripList s.data
  let (sign, body) : ℤ × List Char :=
    match cs with
    | '+' :: rest => (1, rest)
    | '-' :: rest => (-1, rest)
    | rest => (1, rest)
  let parsed : Option Nat :=
    match body with
    | '0' :: 'x' :: rest => if rest = [] then none else hexGroups 0 false false rest
    | '0' :: 'X' :: rest => if rest = [] then none else hexGroups 0 false false rest
    | rest => hexGroups 0 false true rest
  match parsed with
  | some n => .ok (sign * n)
  | none => .error ()

/-- Python slice `cs[i : i+n]` (out-of-range indices clamp). -/
def pySlice (cs : List Char) (i n : Nat) : List Char :=
  (cs.drop i).take n

/-- `''.join([c*2 for c in color])` — the `#rgb → #rrggbb` expansion. -/
def expandShortHex (cs : List Char) : List Char :=
  cs.flatMap (fun c => [c, c])

/-- The named-color table of `_parse_color`. -/
def named_colors : List (String × (ℤ × ℤ × ℤ)) :=
  [("white", (255, 255, 255)), ("black", (0, 0, 0)), ("red", (255, 0, 0)),
   ("green", (0, 128, 0)), ("blue", (0, 0, 255)), ("yellow", (255, 255, 0)),
   ("cyan", (0, 255, 255)), ("magenta", (255, 0, 255)),
   ("gray", (128, 128, 128)), ("grey", (128, 128, 128))]

/-- `named_colors.get(color, (0, 0, 0))`. -/
def lookupNamedColor (c : List Char) : Option (ℤ × ℤ × ℤ) :=
  (named_colors.find? (fun p => p.1.data == c)).map Prod.snd

/-- `color.strip().lower()` — the canonical form `_parse_color` works on. -/
def canonColor (color : String) : List Char :=
  (pyStripList color.data).map Char.toLower

/-- `ColorContrastChecker._parse_color(color)`.  Hex branch: drop `#`, expand
a 3-digit form, then `int(color[i:i+2], 16)` for i = 0, 2, 4.  `rgb` branch:
`re.findall(r'\d+', color)[:3]` as ints.  Otherwise a named-color lookup
defaulting to black. -/
def parse_color (color : String) : Except Unit (List ℤ) :=
  let c := canonColor color
  if c.head? = some '#' then
    let h := c.drop 1
    let h := if h.length = 3 then expandShortHex h else h
    do
      let r ← pyIntHex (String.mk (pySlice h 0 2))
      let g ← pyIntHex (String.mk (pySlice h 2 2))
      let b ← pyIntHex (String.mk (pySlice h 4 2))
      return [r, g, b]
  else if ("rgb".data.isPrefixOf c) then
    .ok (((digitRuns c).take 3).map (fun ds => (digitsToNat ds : ℤ)))
  else
    .ok (match lookupNamedColor c with
      | some (r, g, b) => [r, g, b]
      | none => [0, 0, 0])

end ColorContrastChecker

namespace ErrorRecovery

/-! ## `Playwright_tools.py` — `ErrorRecovery.recover`

Each of the five configured recovery strategies is an async method whose
outcome depends on the page; an outcome is either a returned result dict or
a raised exception.  The result dicts of the strategies carry a `success`
flag and optionally `strategy`/`message` diagnostics (further keys such as
`frame`, `shadow_hosts` or `working_selector` never influence `recover`
and are not modelled); `strategies_tried` is the key the claim asks about,
so it is modelled explicitly. -/

structure RecoveryResult where
  success : Bool
  strategy : Option String := none
  message : Option String := none
  strategies_tried : Option (List String) := none
deriving DecidableEq, Repr

inductive StrategyOutcome where
  | returned (r : RecoveryResult)
  | raised
deriving DecidableEq, Repr

/-- The strategy names, in the configured order of
`ErrorRecovery.recover`'s `recovery_strategies` list. -/
def recovery_strategy_names : List String :=
  ["iframe_context", "shadow_dom", "dynamic_wait", "visual_approach",
   "alternative_selectors"]

/-- `ErrorRecovery.recover`: walk the strategy outcomes in order, return the
first result whose `success` is truthy (an exception counts as "strategy
failed"); when everything is exhausted return
`{"success": False, "message": "All recovery strategies failed"}`. -/
def recover : List StrategyOutcome → RecoveryResult
  | [] => { success := false, message := some "All recovery strategies failed" }
  | .raised :: rest => recover rest
  | .returned r :: rest => if r.success then r else recover rest

/-- An outcome that does not stop the recovery sweep. -/
def outcomeFailed : StrategyOutcome → Bool
  | .raised => true
  | .returned r => !r.success

/-- One concrete run in which all five configured strategies return a
failing result. -/
def allFailingOutcomes : List StrategyOutcome :=
  recovery_strategy_names.map (fun n => .returned { success := false, strategy := some n })

end ErrorRecovery

namespace SmartTextLocator

/-! ## `Playwright_tools.py` — `playwright_smart_text_locator`

The heart of the tool is the JavaScript evaluated on the page
(`text_search_script` with `fuzzyMatch = true`, the default).  The DOM walk
(`elementTypes.forEach` / `querySelectorAll`) is environment input,
modelled as the list of elements encountered, each with its visibility and
its seven text sources (`textContent`, `innerText`, `value`, `placeholder`,
`title`, `aria-label`, `alt`) in that order.  JS numbers stay exact on these
values and are embedded in `ℚ`; decimal literals are written with `mkRat`
(`mkRat 4 5` is 0.8, `mkRat 3 10` is 0.3, `mkRat 8 10` is 0.8,
`mkRat 6 10` is 0.6) so that proofs can evaluate them. -/

/-- One row update of the Levenshtein matrix of `calculateTextSimilarity`:
`diag`/`left`/`up` are `matrix[i-1][j-1]`, `matrix[i][j-1]`, `matrix[i-1][j]`. -/
def levRowGo (c2 : Char) (diag left : ℕ) : List Char → List ℕ → List ℕ
  | c :: cs, up :: ups =>
    let v := if c2 = c then diag else 1 + min (min diag left) up
    v :: levRowGo c2 up v cs ups
  | _, _ => []

/-- Row `i` of the matrix from row `i-1` (`prev`); `matrix[i][0] = i`. -/
def levNextRow (c2 : Char) (s1 : List Char) (prev : List ℕ) (i : ℕ) : List ℕ :=
  match prev with
  | [] => [i]
  | p0 :: rest => i :: levRowGo c2 p0 i s1 rest

/-- The outer loop over the characters of `s2`. -/
def levLoop (s1 : List Char) (row : List ℕ) (i : ℕ) : List Char → List ℕ
  | [] => row
  | c :: cs => levLoop s1 (levNextRow c s1 row i) (i + 1) cs

/-- The Levenshtein distance computed by `calculateTextSimilarity`'s matrix:
`matrix[0][j] = j`, `matrix[i][0] = i`, and `matrix[s2.length][s1.length]`
is the result. -/
def levDistance (s1 s2 : List Char) : ℕ :=
  (levLoop s1 (List.range (s1.length + 1)) 1 s2).getLastD 0

/-- `calculateTextSimilarity(str1, str2)` with `fuzzyMatch = true`:
case-insensitive exact match → 1; substring containment either way → 0.8;
otherwise `(maxLength - distance) / maxLength`. -/
def calculateTextSimilarity (str1 str2 : String) : ℚ :=
  let s1 := pyLower str1
  let s2 := pyLower str2
  if s1 = s2 then 1
  else if strContains s1 s2 || strContains s2 s1 then mkRat 4 5
  else
    let distance := levDistance s1.data s2.data
    let maxLength := max s1.data.length s2.data.length
    mkRat ((maxLength : ℤ) - (distance : ℤ)) maxLength

/-- An element reached by the page walk, with its seven text sources. -/
structure PageElement where
  tagName : String := ""
  id : String := ""
  className : String := ""
  visible : Bool := true
  textSources : List String := []
deriving DecidableEq, Repr

/-- A candidate pushed by the script (`element` metadata, `score`,
`matchedText`, bucketed `confidence`). -/
structure TextCandidate where
  tagName : String
  id : String
  className : String
  score : ℚ
  matchedText : String
  confidence : String
deriving DecidableEq, Repr

/-- The `textSources.forEach` fold computing `bestScore`/`bestText`
(empty sources are skipped by the `if (textSource)` truthiness test). -/
def bestMatch (searchText : String) (sources : List String) : ℚ × String :=
  sources.foldl
    (fun best src =>
      if src ≠ "" then
        let score := calculateTextSimilarity src searchText
        if score > best.1 then (score, src) else best
      else best)
    (0, "")

/-- Per-element candidate: invisible elements are skipped, and a candidate is
pushed only when `bestScore > 0.3` (the minimum threshold), with confidence
`high` above 0.8 and `medium` above 0.6. -/
def candidateOf (searchText : String) (e : PageElement) : Option TextCandidate :=
  if e.visible = false then none
  else
    let b := bestMatch searchText e.textSources
    if b.1 > mkRat 3 10 then
      some { tagName := e.tagName, id := e.id, className := e.className,
             score := b.1, matchedText := b.2,
             confidence :=
               if b.1 > mkRat 8 10 then "high"
               else if b.1 > mkRat 6 10 then "medium"
               else "low" }
    else none

/-- Stable descending insertion implementing
`candidates.sort((a, b) => b.score - a.score)` (ES2019 sorts are stable):
an element is placed before the first strictly smaller score. -/
def insertByScoreDesc (x : TextCandidate) : List TextCandidate → List TextCandidate
  | [] => [x]
  | y :: ys => if x.score ≥ y.score then x :: y :: ys else y :: insertByScoreDesc x ys

/-- Stable sort by descending `score`. -/
def sortByScoreDesc (l : List TextCandidate) : List TextCandidate :=
  l.foldr insertByScoreDesc []

/-- The candidate list returned by the evaluated script of
`playwright_smart_text_locator`: per-element scoring, thresholding, then the
descending sort. -/
def smartTextCandidates (searchText : String) (elements : List PageElement) : List TextCandidate :=
  sortByScoreDesc (elements.filterMap (candidateOf searchText))

/-- Concrete page used by the C8 witness. -/
def samplePage : List PageElement :=
  [{ tagName := "button", id := "submit-btn", textSources := ["Submit"] },
   { tagName := "a", id := "other", textSources := ["Order history"] }]

/-- The candidate produced for the first element of `samplePage` when
searching for `"Submit"`. -/
def sampleCandidate : TextCandidate :=
  { tagName := "button", id := "submit-btn", className := "", score := 1,
    matchedText := "Submit", confidence := "high" }

end SmartTextLocator

namespace SophisticatedAgent

/-! ## `sophisticated_agent_client.py` — orchestration loop

The per-iteration state update of `sophisticated_llm_interaction` is a pure
function of the decision's phase and the step result; it is extracted here
as `updateAfterStep`.  `AgentResult` mirrors the dataclass (the float fields
`confidence` and `execution_time` never influence control flow; the time
appears in feedback only through its `{:.2f}` rendering, which is wall-clock
environment data and is carried as the pre-rendered string
`execution_time_display`).  A feedback message is modelled as the list of
string segments the source appends, in order. -/

structure AgentResult where
  success : Bool
  step_description : String := ""
  tool_used : String := ""
  phase : String := ""
  strategy_used : String := ""
  confidence : ℚ := 0
  execution_time_display : String := ""
  element_found : Bool := false
  selector_used : String := ""
  alternatives : List String := []
  error_message : String := ""
deriving DecidableEq, Repr

/-- `current_phase` and `failure_count` of the loop. -/
structure LoopState where
  current_phase : String
  failure_count : Nat
deriving DecidableEq, Repr

/-- `self.max_failures = 3`. -/
def max_failures : Nat := 3

/-- The phase/failure-counter update of the loop body: on success the
counter resets and the phase advances (`locate` → `action` only when the
result also reports a found element, `action` → `verify`,
`verify` → `locate`); on failure the phase is kept and the counter is
incremented. -/
def updateAfterStep (decisionPhase : String) (success element_found : Bool)
    (st : LoopState) : LoopState :=
  if success = true then
    { current_phase :=
        if decisionPhase = "locate" ∧ element_found = true then "action"
        else if decisionPhase = "action" then "verify"
        else if decisionPhase = "verify" then "locate"
        else st.current_phase
      failure_count := 0 }
  else
    { st with failure_count := st.failure_count + 1 }

/-- The loop's break condition after a step: a successful `verify` decision
whose goal-completion check passes ends the session. -/
def sessionEndsAfterVerify (decisionPhase : String) (success completionCheck : Bool) : Bool :=
  decide (decisionPhase = "verify") && success && completionCheck

/-- `_generate_sophisticated_feedback(result, current_phase)`, with the
`self.failure_count` it reads passed explicitly; returns the appended
segments in order. -/
def generate_sophisticated_feedback (result : AgentResult) (current_phase : String)
    (failure_count : Nat) : List String :=
  if result.success = true then
    ["✅ SUCCESS (" ++ result.phase ++ "): " ++ result.step_description ++ "\n",
     "Tool: " ++ result.tool_used ++ " | Time: " ++ result.execution_time_display ++ "s\n"] ++
    (if result.element_found = true then
      ["🎯 ELEMENT LOCATED: " ++ result.selector_used ++ "\n",
       "Next phase: ACTION (use action tools with this selector)\n"]
     else ["Action completed successfully\n"]) ++
    ["Current phase: " ++ pyUpper current_phase ++ "\n",
     "What's the next step in the workflow?"]
  else
    ["❌ FAILURE (" ++ result.phase ++ "): " ++ result.step_description ++ "\n",
     "Error: " ++ result.error_message ++ "\n",
     "Tool attempted: " ++ result.tool_used ++ "\n",
     "Failure #" ++ toString failure_count ++ "/" ++ toString max_failures ++ "\n"] ++
    (if failure_count ≥ max_failures then
      ["🚨 Max failures reached. Try:\n",
       "1. Take screenshot to understand page state\n",
       "2. Use different locator strategy\n",
       "3. Use unified tools for automatic handling\n"]
     else
      ["💡 Try alternative approach:\n"] ++
      (if current_phase = "locate" then
        ["- Different locator tool (role → text → css → xpath)\n",
         "- Unified tools for automatic element finding\n"]
       else if current_phase = "action" then
        ["- Verify selector is correct\n",
         "- Try unified action tools\n"]
       else [])) ++
    ["Current phase: " ++ pyUpper current_phase ++ "\n",
     "Please provide recovery strategy."]

/-- A failing step result, used by the C3 witness. -/
def sampleFailResult : AgentResult :=
  { success := false, step_description := "Find the Submit button",
    tool_used := "playwright_find_by_role", phase := "locate",
    error_message := "TimeoutError: waiting for selector" }

/-! ## `_create_sophisticated_fallback`

The fallback decision is a dict; it is modelled as a record with the keys
the source can emit (`action` is always present, the rest optional).
Parameter values are Python literals (strings, bools, ints, string lists).
The known tool set is the union of the keys of `self.locator_tools`,
`self.action_tools`, `self.utility_tools` and `self.accessibility_tools`
populated by `_categorize_all_tools`. -/

inductive PyVal where
  | str (s : String)
  | bool (b : Bool)
  | int (n : ℤ)
  | strList (l : List String)
deriving DecidableEq, Repr

structure Decision where
  action : String
  summary : Option String := none
  phase : Option String := none
  next_step : Option String := none
  tool : Option String := none
  parameters : Option (List (String × PyVal)) := none
  reasoning : Option String := none
deriving DecidableEq, Repr

/-- Keys of `self.locator_tools`. -/
def locator_tool_names : List String :=
  ["playwright_smart_text_locator", "playwright_multi_strategy_locate",
   "playwright_find_by_role", "playwright_accessibility_locator",
   "playwright_css_locator", "playwright_xpath_locator",
   "playwright_label_to_control", "playwright_locator_by_label",
   "playwright_nth_element", "playwright_parent_element",
   "playwright_custom_attribute_locator", "playwright_complex_selector_builder",
   "playwright_js_locate", "playwright_vision_locator",
   "playwright_comprehensive_element_analyzer"]

/-- Keys of `self.action_tools`. -/
def action_tool_names : List String :=
  ["playwright_click", "playwright_fill", "playwright_select",
   "playwright_hover", "playwright_drag", "playwright_press_key",
   "unified_click", "unified_fill", "playwright_smart_click",
   "playwright_click_and_switch_tab", "playwright_iframe_click",
   "playwright_intelligent_form_fill"]

/-- Keys of `self.utility_tools`. -/
def utility_tool_names : List String :=
  ["playwright_navigate", "playwright_smart_navigation",
   "playwright_navigate_and_wait_for_url", "playwright_wait_for_navigation",
   "playwright_go_back", "playwright_go_forward", "playwright_screenshot",
   "playwright_get_visible_text", "playwright_get_visible_html",
   "playwright_analyze_form", "playwright_find_element_by_visual",
   "playwright_verify_state", "playwright_wait_for_load_state_multiple",
   "playwright_evaluate", "playwright_console_logs",
   "playwright_custom_user_agent", "playwright_save_as_pdf",
   "playwright_intercept_requests", "playwright_stop_intercepting_requests",
   "playwright_set_dialog_handler", "playwright_remove_dialog_handler",
   "playwright_auto_handle_next_dialog", "playwright_expect_response",
   "playwright_assert_response", "playwright_error_recovery",
   "playwright_close"]

/-- Keys of `self.accessibility_tools`. -/
def accessibility_tool_names : List String :=
  ["check_accessibility", "accessibility_quick_check", "check_color_contrast",
   "check_non_text_contrast", "check_color_blindness_accessibility",
   "simulate_color_blindness", "analyze_gradient_contrast",
   "get_wcag22_checklist", "playwright_accessibility_snapshot",
   "playwright_accessibility_tree_snapshot",
   "playwright_find_by_role_in_accessibility_tree"]

/-- The union `{**locator, **action, **utility, **accessibility}` tool keys
that `_validate_decision` accepts. -/
def all_tool_names : List String :=
  locator_tool_names ++ action_tool_names ++ utility_tool_names ++
    accessibility_tool_names

/-- `re.search(r'(\d+)\s*times?', s)`, returning the first group as a
number.  A match starts at a digit; `\d+` is forced to the maximal digit run
(a shorter run leaves a digit where `\s*time` needs whitespace or `t`) and
`\s*` to the maximal whitespace run (shrinking it leaves whitespace where
`time` needs `t`), after which the literal `time` must follow (`s?` does
not affect the group). -/
def searchDigitsTimes : List Char → Option Nat
  | [] => none
  | c :: rest =>
    if c.isDigit then
      let run := (c :: rest).takeWhile Char.isDigit
      let after := (c :: rest).dropWhile Char.isDigit
      if "time".data.isPrefixOf (after.dropWhile Char.isWhitespace) then
        some (digitsToNat run)
      else searchDigitsTimes rest
    else searchDigitsTimes rest

/-- `re.search(r'"([^"]+)"', s)`, returning the first group: the leftmost
double quote followed by a non-empty run of non-quote characters and a
closing quote (`[^"]+` is forced to the maximal run, since a shorter run is
followed by a non-quote character). -/
def searchQuoted : List Char → Option String
  | [] => none
  | c :: rest =>
    if c = '"' then
      let content := rest.takeWhile (fun x => x ≠ '"')
      let after := rest.dropWhile (fun x => x ≠ '"')
      if content ≠ [] ∧ after ≠ [] then some (String.mk content)
      else searchQuoted rest
    else searchQuoted rest

/-- `_create_sophisticated_fallback(response)`: keyword-driven construction
of a dispatchable decision from the raw response text. -/
def create_sophisticated_fallback (response : String) : Decision :=
  let response_lower := pyLower response
  if ["task completed", "goal achieved", "finished:", "done:"].any
      (fun p => p.data.isPrefixOf (pyStripList response_lower.data)) then
    { action := "complete", summary := some "Task appears completed" }
  else if ["accessibility", "wcag", "a11y", "audit", "accessiblity"].any
      (fun w => strContains response_lower w) then
    { action := "plan", phase := some "action",
      next_step := some "Run comprehensive accessibility audit",
      tool := some "check_accessibility",
      parameters := some [("url", .str ""),
        ("engines", .strList ["axe", "custom", "wave"])],
      reasoning := some "CRITICAL: Accessibility testing requested - invoking accessibility tools" }
  else if ["navigate", "go to", "visit"].any (fun w => strContains response_lower w) then
    let url :=
      if strContains response_lower "google" then "https://google.com"
      else if strContains response_lower "github" then "https://github.com"
      else if strContains response_lower "herokuapp" then
        "https://the-internet.herokuapp.com/add_remove_elements/"
      else if strContains response_lower "example" then "https://example.com"
      else "https://google.com"
    { action := "plan", phase := some "action",
      next_step := some "Navigate to website",
      tool := some "playwright_navigate",
      parameters := some [("url", .str url), ("wait_for_load", .bool true),
        ("capture_screenshot", .bool true)],
      reasoning := some "Fallback navigation based on detected intent" }
  else if strContains response_lower "click" && strContains response_lower "times" then
    let times := (searchDigitsTimes response_lower.data).getD 1
    let element_name := (searchQuoted response.data).getD "Add Element"
    { action := "plan", phase := some "locate",
      next_step := some ("Find and click '" ++ element_name ++ "' button"),
      tool := some "playwright_find_by_role",
      parameters := some [("role", .str "button"), ("name", .str element_name),
        ("action", .str "click")],
      reasoning := some ("Fallback click action - need to click " ++
        toString times ++ " times") }
  else if ["remove", "delete"].any (fun w => strContains response_lower w) then
    { action := "plan", phase := some "locate",
      next_step := some "Find Delete button to remove element",
      tool := some "playwright_find_by_role",
      parameters := some [("role", .str "button"), ("name", .str "Delete"),
        ("action", .str "click")],
      reasoning := some "Fallback remove action - looking for Delete button" }
  else if ["screenshot", "visual", "capture"].any (fun w => strContains response_lower w) then
    { action := "plan", phase := some "verify",
      next_step := some "Take screenshot",
      tool := some "playwright_screenshot",
      parameters := some [("filename", .str "goal_completion_screenshot"),
        ("full_page", .bool true)],
      reasoning := some "Visual verification fallback" }
  else if ["find", "locate", "search for"].any (fun w => strContains response_lower w) then
    { action := "plan", phase := some "locate",
      next_step := some "Find element by role",
      tool := some "playwright_find_by_role",
      parameters := some [("role", .str "button"), ("name", .str "")],
      reasoning := some "Fallback element location" }
  else
    { action := "plan", phase := some "action",
      next_step := some "Navigate to start automation",
      tool := some "playwright_navigate",
      parameters := some
        [("url", .str "https://the-internet.herokuapp.com/add_remove_elements/"),
         ("wait_for_load", .bool true)],
      reasoning := some "Default fallback - navigate to start the automation process" }

/-! ## `_check_goal_completion`

The conversation is the list of message contents (only
`msg.get("content", "")` is read); `" ".join` becomes
`String.intercalate " "`.  The float comparison
`len(completed)/len(required) >= 1.0` is embedded as the exact
`mkRat len(completed) len(required) ≥ 1`: the lengths are tiny
(`completed ≤ required ≤ 5`), where float division is ≥ 1.0 exactly when the
numerator reaches the denominator. -/

/-- Python `s.startswith(p)`. -/
def pyStartsWith (s p : String) : Bool :=
  p.data.isPrefixOf s.data

/-- Python `s.endswith(p)`. -/
def pyEndsWith (s p : String) : Bool :=
  p.data.isSuffixOf s.data

/-- The `(\d+)\s*times?` tail of the click pattern, scanned lazily from the
position after the mandatory whitespace, and blocked by `.` (the `[^.]*?`
part cannot cross a dot).  At a digit, `\d+` is forced maximal and `\s*`
maximal, then the literal `time` must follow. -/
def scanTimesGroup : List Char → Option Nat
  | [] => none
  | c :: cs =>
    if c = '.' then none
    else if c.isDigit then
      let run := (c :: cs).takeWhile Char.isDigit
      let after := (c :: cs).dropWhile Char.isDigit
      if "time".data.isPrefixOf (after.dropWhile Char.isWhitespace) then
        some (digitsToNat run)
      else scanTimesGroup cs
    else scanTimesGroup cs

/-- First match group of `re.findall(r'click[^\s]*\s+[^.]*?(\d+)\s*times?',
goal)` (the code reads `click_matches[0]`, i.e. the first match).  After the
literal `click`, `[^\s]*` is forced to the maximal non-whitespace run (a
shorter run leaves a non-whitespace character where `\s+` starts), `\s+`
requires at least one whitespace, and the lazy `[^.]*?` yields the leftmost
digit-run position at or after the end of the whitespace run (whitespace
cannot host a digit, so backtracking `\s+` adds no candidates). -/
def searchClickTimes : List Char → Option Nat
  | [] => none
  | c :: rest =>
    if "click".data.isPrefixOf (c :: rest) then
      let afterClick := (c :: rest).drop 5
      let afterRun := afterClick.dropWhile (fun x => !x.isWhitespace)
      match afterRun with
      | [] => searchClickTimes rest
      | _ :: _ =>
        match scanTimesGroup (afterRun.dropWhile Char.isWhitespace) with
        | some n => some n
        | none => searchClickTimes rest
    else searchClickTimes rest

/-- The goal-decomposition half of `_check_goal_completion`: the
`required_steps` list built from the goal text. -/
def required_steps_of (user_goal : String) : List String :=
  let goal_lower := pyLower user_goal
  (if ["navigate", "go to", "visit"].any (fun w => strContains goal_lower w) then
    ["navigation"] else []) ++
  (match searchClickTimes goal_lower.data with
   | some times => ["click_" ++ toString times ++ "_times"]
   | none => []) ++
  (if ["remove", "delete"].any (fun w => strContains goal_lower w) then
    ["remove_element"] else []) ++
  (if strContains goal_lower "screenshot" = true then ["screenshot"] else []) ++
  (if ["accessibility", "a11y", "wcag", "accessiblity"].any
      (fun w => strContains goal_lower w) then ["accessibility"] else [])

/-- Python `s.split(sep)` for a one-character separator. -/
def splitOnChar (sep : Char) : List Char → List (List Char)
  | [] => [[]]
  | c :: rest =>
    let r := splitOnChar sep rest
    if c = sep then [] :: r
    else
      match r with
      | [] => [[c]]
      | g :: gs => (c :: g) :: gs

/-- `int(step.split("_")[1])` for a `click_{n}_times` tag. -/
def extractClickTimes (step : String) : Nat :=
  digitsToNat ((splitOnChar '_' step.data).getD 1 [])

/-- The body of the `for step in required_steps` click loop. -/
def click_step_check (lower_text : String) (step : String) : Option String :=
  if (pyStartsWith step "click_" && pyEndsWith step "_times") = true then
    if pyCount "click".data lower_text.data + pyCount "clicked".data lower_text.data ≥
        extractClickTimes step then
      some step
    else none
  else none

/-- The `completed_steps` list of `_check_goal_completion`, built from the
required tags and the joined conversation text (appends happen in source
order: navigation, click tags, removal, screenshot, accessibility). -/
def completed_steps_of (required_steps : List String) (conversation_text : String) : List String :=
  let lower_text := pyLower conversation_text
  (if "navigation" ∈ required_steps ∧
      (strContains conversation_text "Successfully navigated" ||
       strContains conversation_text "navigation completed") = true then
    ["navigation"] else []) ++
  required_steps.filterMap (click_step_check lower_text) ++
  (if "remove_element" ∈ required_steps ∧
      (strContains lower_text "removed" || strContains lower_text "delete") = true then
    ["remove_element"] else []) ++
  (if "screenshot" ∈ required_steps ∧ strContains lower_text "screenshot" = true then
    ["screenshot"] else []) ++
  (if "accessibility" ∈ required_steps ∧
      (strContains lower_text "accessibility audit" ||
       strContains lower_text "accessibility test" ||
       strContains lower_text "wcag") = true then
    ["accessibility"] else [])

/-- `_check_goal_completion(user_goal, conversation)`.  When no required
step is recognised, the old heuristic counts `"✅ SUCCESS"` messages among
the last six; otherwise completion requires
`len(completed)/len(required) >= 1.0`. -/
def check_goal_completion (user_goal : String) (conversation : List String) : Bool :=
  let required_steps := required_steps_of user_goal
  if required_steps = [] then
    let recent := conversation.drop (conversation.length - 6)
    decide ((recent.filter (fun m => strContains m "✅ SUCCESS")).length ≥ 3)
  else
    let conversation_text := String.intercalate " " conversation
    let completed_steps := completed_steps_of required_steps conversation_text
    decide (mkRat completed_steps.length required_steps.length ≥ 1)

end SophisticatedAgent

/-- Concrete issue used by witnesses. -/
def sampleIssue : AccTools.AccessibilityIssue :=
  { id := "color-contrast"
    type := .violation
    wcag_criterion := "1.4.3"
    level := .AA
    title := "Elements must have sufficient color contrast"
    description := "Contrast below 4.5:1"
    element := "<span>x</span>"
    selector := ".low-contrast-text"
    impact := "serious"
    help_url := ""
    fix_recommendation := "Increase contrast" }

/-- C6: the accessibility score equals
`max(0, 100 - 10·|violations| - 5·|warnings| - 2·|manualChecks|)` (rounding to
one decimal is the identity on these integer values), except that with no
violations and no warnings the score is exactly 100 regardless of the number
of manual checks. -/
theorem accessibility_score_formula :
    ∀ (v w m : List AccTools.AccessibilityIssue),
      (v = [] ∧ w = [] → AccTools.calculate_accessibility_score v w m = 100) ∧
      (¬(v = [] ∧ w = []) →
        AccTools.calculate_accessibility_score v w m =
          max 0 (100 - 10 * (v.length : ℤ) - 5 * (w.length : ℤ) - 2 * (m.length : ℤ))) := by
  intro v w m
  constructor
  · intro h
    simp [AccTools.calculate_accessibility_score, h.1, h.2]
  · intro h
    simp only [AccTools.calculate_accessibility_score, if_neg h]
    ring_nf

/-- Witness for `accessibility_score_formula` at concrete inputs. -/
theorem accessibility_score_formula_witness :
    AccTools.calculate_accessibility_score [] [] [sampleIssue] = 100 ∧
    AccTools.calculate_accessibility_score [sampleIssue] [] [] =
      max 0 (100 - 10 * 1 - 5 * 0 - 2 * 0) := by
  have h1 := (accessibility_score_formula [] [] [sampleIssue]).1 ⟨rfl, rfl⟩
  have h2 := (accessibility_score_formula [sampleIssue] [] []).2 (by simp)
  exact ⟨h1, by simpa using h2⟩

/-- C7: text is large exactly when `fontSize ≥ 18` or (`fontSize ≥ 14` and
bold); AA/AAA thresholds are 3.0/4.5 for large text, 4.5/7.0 for normal text,
compared with `≥`; together with the four boundary cases of the claim. -/
theorem wcag_compliance_thresholds :
    (∀ (ratio : ℚ) (fs : ℤ) (bold : Bool),
      (ColorContrastChecker.check_wcag_compliance ratio fs bold).AA =
        decide (ratio ≥ if fs ≥ 18 ∨ (fs ≥ 14 ∧ bold = true) then (3 : ℚ) else 4.5) ∧
      (ColorContrastChecker.check_wcag_compliance ratio fs bold).AAA =
        decide (ratio ≥ if fs ≥ 18 ∨ (fs ≥ 14 ∧ bold = true) then (4.5 : ℚ) else 7)) ∧
    (ColorContrastChecker.check_wcag_compliance 4.5 14 false).AA = true ∧
    (ColorContrastChecker.check_wcag_compliance 4.49 14 false).AA = false ∧
    (ColorContrastChecker.check_wcag_compliance 3 18 false).AA = true ∧
    (ColorContrastChecker.check_wcag_compliance 3 17 false).AA = false := by
  refine ⟨?_, by norm_num [ColorContrastChecker.check_wcag_compliance],
    by norm_num [ColorContrastChecker.check_wcag_compliance],
    by norm_num [ColorContrastChecker.check_wcag_compliance],
    by norm_num [ColorContrastChecker.check_wcag_compliance]⟩
  intro ratio fs bold
  by_cases h18 : fs ≥ 18 <;> by_cases h14 : fs ≥ 14 <;> cases bold <;>
    simp [ColorContrastChecker.check_wcag_compliance, h18, h14] <;> norm_num

/-- C2 counterexample: the malformed hex string `"#zzz"` makes `_parse_color`
raise `ValueError` (from `int("zz", 16)`), and `"rgb()"` returns the empty
tuple — neither degrades to black `(0, 0, 0)` as the claim states. -/
theorem parse_color_counterexample :
    ColorContrastChecker.parse_color "#zzz" = .error () ∧
    ColorContrastChecker.parse_color "rgb()" = .ok [] ∧
    ColorContrastChecker.parse_color "#zzz" ≠ .ok [0, 0, 0] ∧
    ColorContrastChecker.parse_color "rgb()" ≠ .ok [0, 0, 0] := by
  refine ⟨by decide, by decide, by decide, by decide⟩

/-- C2 amended: only inputs that (after `strip().lower()`) start with neither
`#` nor `rgb` fall through to the named-color table and degrade to black
`(0, 0, 0)` when unknown; malformed hex raises `ValueError` (e.g. `"#zzz"`)
and `rgb()` strings with fewer than three numbers return a tuple with fewer
than three components (e.g. `"rgb(1,2)"` gives `(1, 2)`). -/
theorem parse_color_fallback :
    (∀ color : String,
      (ColorContrastChecker.canonColor color).head? ≠ some '#' →
      "rgb".data.isPrefixOf (ColorContrastChecker.canonColor color) = false →
      ColorContrastChecker.lookupNamedColor (ColorContrastChecker.canonColor color) = none →
      ColorContrastChecker.parse_color color = .ok [0, 0, 0]) ∧
    ColorContrastChecker.parse_color "#zzz" = .error () ∧
    ColorContrastChecker.parse_color "rgb(1,2)" = .ok [1, 2] := by
  refine ⟨?_, by decide, by decide⟩
  intro color h1 h2 h3
  simp [ColorContrastChecker.parse_color, if_neg h1, h2, h3]

/-- Witness for `parse_color_fallback` at the unknown color name `"mauve"`. -/
theorem parse_color_fallback_witness :
    ColorContrastChecker.parse_color "mauve" = .ok [0, 0, 0] :=
  parse_color_fallback.1 "mauve" (by decide) (by decide) (by decide)

namespace AccTools

/-- The deduplication loop keeps a subsequence of its input. -/
theorem deduplicate_issues_aux_sublist :
    ∀ (l : List AccessibilityIssue) (seen : List String),
      (deduplicate_issues_aux seen l).Sublist l := by
  intro l
  induction l with
  | nil => intro seen; simp [deduplicate_issues_aux]
  | cons i rest ih =>
    intro seen
    by_cases hk : issueKey i ∈ seen
    · simp only [deduplicate_issues_aux, if_pos hk]
      exact (ih seen).cons i
    · simp only [deduplicate_issues_aux, if_neg hk]
      exact (ih _).cons₂ i

/-- Membership characterization of the deduplication loop: an issue survives
iff its key is not in `seen` and it is the first issue of the list bearing
its key. -/
theorem mem_deduplicate_issues_aux :
    ∀ (l : List AccessibilityIssue) (seen : List String) (x : AccessibilityIssue),
      x ∈ deduplicate_issues_aux seen l ↔
        (issueKey x ∉ seen ∧
          l.find? (fun z => issueKey z == issueKey x) = some x) := by
  intro l
  induction l with
  | nil => intro seen x; simp [deduplicate_issues_aux]
  | cons i rest ih =>
    intro seen x
    by_cases hk : issueKey i ∈ seen
    · simp only [deduplicate_issues_aux, if_pos hk]
      rw [ih]
      by_cases hx : issueKey x = issueKey i
      · constructor
        · rintro ⟨hns, _⟩
          exact absurd (hx ▸ hk) hns
        · rintro ⟨hns, _⟩
          exact absurd (hx ▸ hk) hns
      · have hp : (issueKey i == issueKey x) = false := by
          simp [beq_eq_false_iff_ne]
          exact fun h => hx h.symm
        simp [List.find?, hp]
    · simp only [deduplicate_issues_aux, if_neg hk]
      constructor
      · intro hmem
        rcases List.mem_cons.mp hmem with h | h
        · subst h
          refine ⟨hk, ?_⟩
          simp [List.find?]
        · obtain ⟨hns, hfind⟩ := (ih _ x).mp h
          have hxk : issueKey x ≠ issueKey i := by
            intro he
            exact hns (by simp [he])
          have hns' : issueKey x ∉ seen := fun hc => hns (by simp [hc])
          refine ⟨hns', ?_⟩
          have hp : (issueKey i == issueKey x) = false := by
            simp [beq_eq_false_iff_ne]
            exact fun h => hxk h.symm
          simp [List.find?, hp, hfind]
      · rintro ⟨hns, hfind⟩
        by_cases hx : issueKey x = issueKey i
        · have : i = x := by
            have hp : (issueKey i == issueKey x) = true := by simp [hx]
            simpa [List.find?, hp] using hfind
          exact this ▸ List.mem_cons_self i _
        · have hp : (issueKey i == issueKey x) = false := by
            simp [beq_eq_false_iff_ne]
            exact fun h => hx h.symm
          have hfind' : rest.find? (fun z => issueKey z == issueKey x) = some x := by
            simpa [List.find?, hp] using hfind
          refine List.mem_cons.mpr (Or.inr ?_)
          exact (ih _ x).mpr ⟨by simp [hx, hns], hfind'⟩

end AccTools

/-- C9 counterexample: two issues with *different* `(criterion, selector,
title)` triples share the colon-joined key `"1.4.3:a:hover:t"`, so the second
is dropped even though the claim says issues with distinct composite keys are
all retained. -/
theorem deduplicate_issues_counterexample :
    AccTools.deduplicate_issues [AccTools.issueColA, AccTools.issueColB] = [AccTools.issueColA] ∧
    (AccTools.issueColA.wcag_criterion, AccTools.issueColA.selector, AccTools.issueColA.title) ≠
      (AccTools.issueColB.wcag_criterion, AccTools.issueColB.selector, AccTools.issueColB.title) := by
  refine ⟨by decide, by decide⟩

/-- C9 amended: deduplication keeps, in original order, exactly those issues
that are the first occurrence of their colon-joined key string
`criterion:selector:title`.  Identical triples are collapsed to their first
occurrence, but distinct triples whose joined strings coincide (fields
containing `:`) are collapsed as well. -/
theorem deduplicate_issues_spec :
    ∀ l : List AccTools.AccessibilityIssue,
      (AccTools.deduplicate_issues l).Sublist l ∧
      ∀ x : AccTools.AccessibilityIssue,
        x ∈ AccTools.deduplicate_issues l ↔
          l.find? (fun z => AccTools.issueKey z == AccTools.issueKey x) = some x := by
  intro l
  refine ⟨AccTools.deduplicate_issues_aux_sublist l [], fun x => ?_⟩
  rw [AccTools.deduplicate_issues, AccTools.mem_deduplicate_issues_aux]
  simp

/-- C10: `total_issues` counts deduplicated violations plus deduplicated
warnings only; manual checks and passed tests appear in the report's
`manual_checks`/`passed_tests` lists but are never counted in
`total_issues`. -/
theorem total_issues_excludes_manual_and_passed :
    ∀ (url ts : String) (issues : List AccTools.AccessibilityIssue),
      (AccTools.run_comprehensive_test_report url ts issues).total_issues =
        ((AccTools.deduplicate_issues issues).filter
          (fun i => i.type == AccTools.IssueType.violation)).length +
        ((AccTools.deduplicate_issues issues).filter
          (fun i => i.type == AccTools.IssueType.warning)).length ∧
      (AccTools.run_comprehensive_test_report url ts issues).manual_checks =
        (AccTools.deduplicate_issues issues).filter
          (fun i => i.type == AccTools.IssueType.manual_check) ∧
      (AccTools.run_comprehensive_test_report url ts issues).passed_tests =
        (AccTools.deduplicate_issues issues).filter
          (fun i => i.type == AccTools.IssueType.pass) := by
  intro url ts issues
  exact ⟨rfl, rfl, rfl⟩

/-- C1 counterexample: when all five configured strategies fail,
`ErrorRecovery.recover` returns `success=False` with the message
`"All recovery strategies failed"` but *no* `strategies_tried` key at all,
so the reported `strategies_tried` list cannot have length 5. -/
theorem recover_counterexample :
    (ErrorRecovery.recover ErrorRecovery.allFailingOutcomes).success = false ∧
    (ErrorRecovery.recover ErrorRecovery.allFailingOutcomes).strategies_tried = none ∧
    ¬∃ l : List String,
      (ErrorRecovery.recover ErrorRecovery.allFailingOutcomes).strategies_tried = some l ∧
      l.length = ErrorRecovery.recovery_strategy_names.length := by
  refine ⟨by decide, by decide, ?_⟩
  rintro ⟨l, hl, -⟩
  rw [show (ErrorRecovery.recover ErrorRecovery.allFailingOutcomes).strategies_tried = none
      from by decide] at hl
  exact Option.noConfusion hl

/-- C1 amended: if every configured recovery strategy fails (returns a falsy
`success` or raises), `recover` returns exactly
`{"success": False, "message": "All recovery strategies failed"}`; no
`strategies_tried` list is included in the result. -/
theorem recover_exhaustion :
    ∀ outcomes : List ErrorRecovery.StrategyOutcome,
      (∀ o ∈ outcomes, ErrorRecovery.outcomeFailed o = true) →
      ErrorRecovery.recover outcomes =
        { success := false, strategy := none,
          message := some "All recovery strategies failed",
          strategies_tried := none } := by
  intro outcomes h
  induction outcomes with
  | nil => rfl
  | cons o rest ih =>
    have ho := h o (List.mem_cons_self o rest)
    have hrest := fun x hx => h x (List.mem_cons_of_mem o hx)
    cases o with
    | raised => exact ih hrest
    | returned r =>
      have hf : r.success = false := by
        simpa [ErrorRecovery.outcomeFailed] using ho
      simp only [ErrorRecovery.recover, hf, Bool.false_eq_true, if_false]
      exact ih hrest

/-- Witness for `recover_exhaustion` at the concrete all-failing run. -/
theorem recover_exhaustion_witness :
    ErrorRecovery.recover ErrorRecovery.allFailingOutcomes =
      { success := false, strategy := none,
        message := some "All recovery strategies failed",
        strategies_tried := none } :=
  recover_exhaustion ErrorRecovery.allFailingOutcomes (by decide)

namespace SmartTextLocator

/-- Membership in a descending insertion. -/
theorem mem_insertByScoreDesc (z x : TextCandidate) :
    ∀ l : List TextCandidate, z ∈ insertByScoreDesc x l ↔ z = x ∨ z ∈ l := by
  intro l
  induction l with
  | nil => simp [insertByScoreDesc]
  | cons y ys ih =>
    by_cases h : x.score ≥ y.score
    · simp only [insertByScoreDesc, if_pos h, List.mem_cons]
    · simp only [insertByScoreDesc, if_neg h, List.mem_cons, ih]
      tauto

/-- Descending insertion preserves the descending-score pairwise order. -/
theorem pairwise_insertByScoreDesc (x : TextCandidate) :
    ∀ l : List TextCandidate, l.Pairwise (fun a b => b.score ≤ a.score) →
      (insertByScoreDesc x l).Pairwise (fun a b => b.score ≤ a.score) := by
  intro l
  induction l with
  | nil => intro _; simp [insertByScoreDesc]
  | cons y ys ih =>
    intro hp
    rw [List.pairwise_cons] at hp
    obtain ⟨hy, hys⟩ := hp
    by_cases h : x.score ≥ y.score
    · simp only [insertByScoreDesc, if_pos h]
      refine List.Pairwise.cons ?_ (List.Pairwise.cons hy hys)
      intro z hz
      rcases List.mem_cons.mp hz with rfl | hz'
      · exact h
      · exact le_trans (hy z hz') h
    · simp only [insertByScoreDesc, if_neg h]
      refine List.Pairwise.cons ?_ (ih hys)
      intro z hz
      rcases (mem_insertByScoreDesc z x ys).mp hz with rfl | hz'
      · exact le_of_lt (lt_of_not_ge h)
      · exact hy z hz'

/-- Sorting does not change membership. -/
theorem mem_sortByScoreDesc (z : TextCandidate) :
    ∀ l : List TextCandidate, z ∈ sortByScoreDesc l ↔ z ∈ l := by
  intro l
  induction l with
  | nil => simp [sortByScoreDesc]
  | cons y ys ih =>
    show z ∈ insertByScoreDesc y (sortByScoreDesc ys) ↔ _
    rw [mem_insertByScoreDesc, ih, List.mem_cons]

/-- The sort output is pairwise descending in score. -/
theorem sorted_sortByScoreDesc :
    ∀ l : List TextCandidate,
      (sortByScoreDesc l).Pairwise (fun a b => b.score ≤ a.score) := by
  intro l
  induction l with
  | nil => simp [sortByScoreDesc]
  | cons y ys ih => exact pairwise_insertByScoreDesc y _ ih

/-- Any candidate actually produced for an element has a score above the
0.3 threshold. -/
theorem score_of_candidateOf (searchText : String) (e : PageElement)
    (c : TextCandidate) (h : candidateOf searchText e = some c) :
    c.score > mkRat 3 10 := by
  by_cases h1 : e.visible = false
  · simp [candidateOf, h1] at h
  · by_cases h2 : (bestMatch searchText e.textSources).1 > mkRat 3 10
    · simp only [candidateOf, if_neg h1, gt_iff_lt, if_pos h2, Option.some.injEq] at h
      rw [← h]
      exact h2
    · simp [candidateOf, h1, h2] at h

end SmartTextLocator

/-- C8: `calculateTextSimilarity` returns 1 on a case-insensitive exact match
(`similarity("Submit", "submit") = 1`), 0.8 on substring containment in
either direction (`similarity("Submit Order", "Submit") ≥ 0.8`), and
otherwise `(maxLen - editDistance)/maxLen` from the Levenshtein matrix;
every candidate kept by `playwright_smart_text_locator` has best score above
the 0.3 threshold (so anything below 0.3 is excluded), and the returned
candidate list is sorted in descending score order. -/
theorem smart_text_locator_similarity_and_ranking :
    SmartTextLocator.calculateTextSimilarity "Submit" "submit" = 1 ∧
    SmartTextLocator.calculateTextSimilarity "Submit Order" "Submit" ≥ 0.8 ∧
    (∀ s1 s2 : String, pyLower s1 ≠ pyLower s2 →
      strContains (pyLower s1) (pyLower s2) = false →
      strContains (pyLower s2) (pyLower s1) = false →
      SmartTextLocator.calculateTextSimilarity s1 s2 =
        mkRat (((max (pyLower s1).data.length (pyLower s2).data.length : ℕ) : ℤ) -
            (SmartTextLocator.levDistance (pyLower s1).data (pyLower s2).data : ℤ))
          (max (pyLower s1).data.length (pyLower s2).data.length)) ∧
    (∀ (searchText : String) (elements : List SmartTextLocator.PageElement)
        (c : SmartTextLocator.TextCandidate),
      c ∈ SmartTextLocator.smartTextCandidates searchText elements →
      c.score > 0.3) ∧
    (∀ (searchText : String) (elements : List SmartTextLocator.PageElement),
      (SmartTextLocator.smartTextCandidates searchText elements).Pairwise
        (fun a b => b.score ≤ a.score)) := by
  refine ⟨by decide, ?_, ?_, ?_, ?_⟩
  · have h : SmartTextLocator.calculateTextSimilarity "Submit Order" "Submit" = mkRat 4 5 := by
      decide
    rw [h]
    norm_num [Rat.mkRat_eq_div]
  · intro s1 s2 h1 h2 h3
    simp only [SmartTextLocator.calculateTextSimilarity, if_neg h1, h2, h3,
      Bool.or_self, Bool.false_eq_true, if_false]
  · intro searchText elements c hc
    rw [SmartTextLocator.smartTextCandidates,
      SmartTextLocator.mem_sortByScoreDesc] at hc
    obtain ⟨e, _, he⟩ := List.mem_filterMap.mp hc
    have := SmartTextLocator.score_of_candidateOf searchText e c he
    have h03 : (0.3 : ℚ) = mkRat 3 10 := by norm_num [Rat.mkRat_eq_div]
    rw [h03]
    exact this
  · intro searchText elements
    exact SmartTextLocator.sorted_sortByScoreDesc _

/-- Witness for `smart_text_locator_similarity_and_ranking` at concrete
inputs: the Levenshtein branch on `"abc"`/`"xyz"`, and the threshold fact for
the candidate kept on `samplePage`. -/
theorem smart_text_locator_similarity_and_ranking_witness :
    SmartTextLocator.calculateTextSimilarity "abc" "xyz" =
      mkRat (((max (pyLower "abc").data.length (pyLower "xyz").data.length : ℕ) : ℤ) -
          (SmartTextLocator.levDistance (pyLower "abc").data (pyLower "xyz").data : ℤ))
        (max (pyLower "abc").data.length (pyLower "xyz").data.length) ∧
    SmartTextLocator.sampleCandidate.score > 0.3 := by
  refine ⟨smart_text_locator_similarity_and_ranking.2.2.1 "abc" "xyz"
    (by decide) (by decide) (by decide), ?_⟩
  exact smart_text_locator_similarity_and_ranking.2.2.2.1 "Submit"
    SmartTextLocator.samplePage SmartTextLocator.sampleCandidate (by decide)

/-- C3 counterexample: a successful `locate` step whose result does not
report a found element (`result.element_found` false — e.g. a locator tool
returning `status: "success"` with no extractable selector, or a non-locator
tool run in the locate phase) leaves the phase at `locate` instead of moving
to `action`, refuting "every successful locate step moves the phase to
action". -/
theorem phase_machine_counterexample :
    (SophisticatedAgent.updateAfterStep "locate" true false
      { current_phase := "locate", failure_count := 0 }).current_phase = "locate" ∧
    (SophisticatedAgent.updateAfterStep "locate" true false
      { current_phase := "locate", failure_count := 0 }).current_phase ≠ "action" := by
  refine ⟨by decide, by decide⟩

/-- C3 amended: a successful locate step moves the phase to `action` only
when it also reports a found element, and otherwise leaves the phase
unchanged; a successful action step moves to `verify`; a successful verify
step returns to `locate` (and the session ends exactly when the decision
phase is `verify`, the step succeeded and the goal-completion check passes);
every failing step leaves the phase unchanged and increments the failure
counter, which is reset to 0 on success; and once the failure counter
reaches the max-failures threshold of 3 the next feedback message carries
the max-failures recovery prompt. -/
theorem phase_machine_spec :
    (∀ st : SophisticatedAgent.LoopState,
      SophisticatedAgent.updateAfterStep "locate" true true st =
        { current_phase := "action", failure_count := 0 }) ∧
    (∀ st : SophisticatedAgent.LoopState,
      SophisticatedAgent.updateAfterStep "locate" true false st =
        { current_phase := st.current_phase, failure_count := 0 }) ∧
    (∀ (st : SophisticatedAgent.LoopState) (ef : Bool),
      SophisticatedAgent.updateAfterStep "action" true ef st =
        { current_phase := "verify", failure_count := 0 }) ∧
    (∀ (st : SophisticatedAgent.LoopState) (ef : Bool),
      SophisticatedAgent.updateAfterStep "verify" true ef st =
        { current_phase := "locate", failure_count := 0 }) ∧
    (∀ (st : SophisticatedAgent.LoopState) (p : String) (ef : Bool),
      SophisticatedAgent.updateAfterStep p false ef st =
        { current_phase := st.current_phase, failure_count := st.failure_count + 1 }) ∧
    (∀ (p : String) (s c : Bool),
      SophisticatedAgent.sessionEndsAfterVerify p s c = true ↔
        (p = "verify" ∧ s = true ∧ c = true)) ∧
    (∀ (r : SophisticatedAgent.AgentResult) (phase : String) (n : Nat),
      r.success = false → n ≥ SophisticatedAgent.max_failures →
      "🚨 Max failures reached. Try:\n" ∈
        SophisticatedAgent.generate_sophisticated_feedback r phase n) := by
  refine ⟨?_, ?_, ?_, ?_, ?_, ?_, ?_⟩
  · intro st
    simp [SophisticatedAgent.updateAfterStep]
  · intro st
    simp [SophisticatedAgent.updateAfterStep]
  · intro st ef
    simp [SophisticatedAgent.updateAfterStep]
  · intro st ef
    simp [SophisticatedAgent.updateAfterStep]
  · intro st p ef
    simp [SophisticatedAgent.updateAfterStep]
  · intro p s c
    simp [SophisticatedAgent.sessionEndsAfterVerify, and_assoc]
  · intro r phase n hf hn
    simp only [SophisticatedAgent.generate_sophisticated_feedback, hf,
      Bool.false_eq_true, if_false, if_pos hn]
    simp [List.mem_append, List.mem_cons]

/-- Witness for `phase_machine_spec`: the `element_found` locate transition
at a concrete state, and the max-failures recovery prompt at failure
number 3. -/
theorem phase_machine_spec_witness :
    SophisticatedAgent.updateAfterStep "locate" true true
      { current_phase := "locate", failure_count := 2 } =
      { current_phase := "action", failure_count := 0 } ∧
    "🚨 Max failures reached. Try:\n" ∈
      SophisticatedAgent.generate_sophisticated_feedback
        SophisticatedAgent.sampleFailResult "locate" 3 := by
  refine ⟨phase_machine_spec.1 { current_phase := "locate", failure_count := 2 }, ?_⟩
  exact phase_machine_spec.2.2.2.2.2.2 SophisticatedAgent.sampleFailResult "locate" 3
    (by decide) (by decide)

/-- C4: for every input string, `_create_sophisticated_fallback` returns a
decision whose `action` is `"complete"` (with a summary) or `"plan"` with a
phase, a parameter map, and a tool name drawn from the known tool set — a
syntactically valid, dispatchable decision.  The function is total by
construction (pure string matching), modelling "never throws". -/
theorem fallback_always_dispatchable :
    ∀ response : String,
      ((SophisticatedAgent.create_sophisticated_fallback response).action = "complete" ∧
        (SophisticatedAgent.create_sophisticated_fallback response).summary.isSome) ∨
      ((SophisticatedAgent.create_sophisticated_fallback response).action = "plan" ∧
        (SophisticatedAgent.create_sophisticated_fallback response).phase.isSome ∧
        (SophisticatedAgent.create_sophisticated_fallback response).parameters.isSome ∧
        ∃ t, (SophisticatedAgent.create_sophisticated_fallback response).tool = some t ∧
          t ∈ SophisticatedAgent.all_tool_names) := by
  intro response
  unfold SophisticatedAgent.create_sophisticated_fallback
  dsimp only
  split_ifs <;>
    first
      | exact Or.inl ⟨rfl, rfl⟩
      | exact Or.inr ⟨rfl, rfl, rfl, _, rfl, by decide⟩

namespace SophisticatedAgent

/-- `completed_steps_of` evaluated at the required tags of the C5 goal. -/
theorem completed_steps_concrete (text : String) :
    completed_steps_of ["navigation", "click_3_times", "screenshot"] text =
      (if (strContains text "Successfully navigated" ||
           strContains text "navigation completed") = true then ["navigation"] else []) ++
      (if pyCount "click".data (pyLower text).data +
            pyCount "clicked".data (pyLower text).data ≥ 3 then ["click_3_times"] else []) ++
      (if strContains (pyLower text) "screenshot" = true then ["screenshot"] else []) := by
  have e1 : click_step_check (pyLower text) "navigation" = none := if_neg (by decide)
  have e3 : click_step_check (pyLower text) "screenshot" = none := if_neg (by decide)
  have e2 : click_step_check (pyLower text) "click_3_times" =
      if pyCount "click".data (pyLower text).data +
          pyCount "clicked".data (pyLower text).data ≥ 3 then
        some "click_3_times"
      else none := by
    unfold click_step_check
    rw [if_pos (by decide),
      show extractClickTimes "click_3_times" = 3 from by decide]
  have m1 : ("navigation" : String) ∈ ["navigation", "click_3_times", "screenshot"] := by decide
  have m2 : ("remove_element" : String) ∉ ["navigation", "click_3_times", "screenshot"] := by decide
  have m3 : ("screenshot" : String) ∈ ["navigation", "click_3_times", "screenshot"] := by decide
  have m4 : ("accessibility" : String) ∉ ["navigation", "click_3_times", "screenshot"] := by decide
  unfold completed_steps_of
  dsimp only
  rw [List.filterMap_cons, List.filterMap_cons, List.filterMap_cons, List.filterMap_nil,
    e1, e2, e3]
  by_cases h2 : pyCount "click".data (pyLower text).data +
      pyCount "clicked".data (pyLower text).data ≥ 3 <;>
    simp [h2, m1, m2, m3, m4]

end SophisticatedAgent

/-- C5: the goal text "Navigate to X and click Button 3 times then take a
screenshot" decomposes to exactly the required tags
`navigation`, `click_3_times`, `screenshot`, and `_check_goal_completion`
on that goal returns true if and only if the transcript carries evidence for
all three tags (navigation phrase, at least 3 `click`/`clicked` occurrences,
and the word `screenshot`); it is false while any tag lacks evidence. -/
theorem goal_decomposition_and_completion :
    SophisticatedAgent.required_steps_of
        "Navigate to X and click Button 3 times then take a screenshot" =
      ["navigation", "click_3_times", "screenshot"] ∧
    ∀ conversation : List String,
      SophisticatedAgent.check_goal_completion
          "Navigate to X and click Button 3 times then take a screenshot"
          conversation = true ↔
        ((strContains (String.intercalate " " conversation) "Successfully navigated" ||
          strContains (String.intercalate " " conversation) "navigation completed") = true ∧
         pyCount "click".data (pyLower (String.intercalate " " conversation)).data +
           pyCount "clicked".data (pyLower (String.intercalate " " conversation)).data ≥ 3 ∧
         strContains (pyLower (String.intercalate " " conversation)) "screenshot" = true) := by
  have hreq : SophisticatedAgent.required_steps_of
      "Navigate to X and click Button 3 times then take a screenshot" =
      ["navigation", "click_3_times", "screenshot"] := by decide
  refine ⟨hreq, ?_⟩
  intro conversation
  unfold SophisticatedAgent.check_goal_completion
  rw [hreq]
  dsimp only
  rw [if_neg (by decide), SophisticatedAgent.completed_steps_concrete,
    decide_eq_true_iff]
  by_cases h1 : (strContains (String.intercalate " " conversation) "Successfully navigated" ||
      strContains (String.intercalate " " conversation) "navigation completed") = true <;>
  by_cases h2 : pyCount "click".data (pyLower (String.intercalate " " conversation)).data +
      pyCount "clicked".data (pyLower (String.intercalate " " conversation)).data ≥ 3 <;>
  by_cases h3 : strContains (pyLower (String.intercalate " " conversation)) "screenshot" = true <;>
    simp [h1, h2, h3] <;> norm_num [Rat.mkRat_eq_div]
